import Mathlib

/-!
Shallow embedding of `src/index.ts` of the discordmcp repository: a Discord
MCP server exposing three tools (send-message, read-messages,
reply-to-conversation) over a Discord client.  The embedding models the
client's observable state (joined guilds, known channels, per-channel message
lists in the platform's native recency order, the bot's own user id, and the
id the platform will assign to the next created message), and translates the
source's helper functions and tool handlers into pure Lean functions.
Thrown exceptions are modelled with `Except.error`; a successful tool result
(`\x7b content: [\x7b type: "text", text \x7d] \x7d`) is modelled as
`Except.ok` carrying the text together with the platform side effect the
handler performed.
-/

namespace DiscordMCP

/-- A joined guild ("server"): `client.guilds.cache` entry with its
platform-assigned id and display name. -/
structure GuildRec where
  id : String
  name : String
deriving DecidableEq, Repr

/-- A channel known to the client (`client.channels` namespace).  `guildId`
and `guildName` model `channel.guild.id` / `channel.guild.name`; `isText`
models `channel instanceof TextChannel`. -/
structure ChannelRec where
  id : String
  name : String
  guildId : String
  guildName : String
  isText : Bool
deriving DecidableEq, Repr

/-- A fetched message: `msg.id`, `msg.author.id`, `msg.author.username`,
`msg.author.tag`, `msg.author.bot`, `msg.content`, `msg.createdTimestamp`,
and `msg.createdAt.toISOString()` (the platform-provided ISO-8601 rendering
of the creation time, kept abstract as a string field). -/
structure MsgRec where
  id : String
  authorId : String
  authorName : String
  authorTag : String
  authorBot : Bool
  content : String
  createdTimestamp : Int
  createdAtISO : String
deriving DecidableEq, Repr

/-- The Discord client's observable state.  `channelMsgs c` is the list of
messages of channel `c` in the platform's native recency order (newest
first), as `channel.messages.fetch` delivers them; `botId` is
`client.user.id`; `nextId` is the id the platform assigns to the next
message created by a send or reply call. -/
structure ClientState where
  guilds : List GuildRec
  channels : List ChannelRec
  channelMsgs : String → List MsgRec
  botId : String
  nextId : String

/-- JS string join: `Array.prototype.join(sep)`. -/
def joinSep (sep : String) : List String → String
  | [] => ""
  | [a] => a
  | a :: b :: rest => a ++ (sep ++ joinSep sep (b :: rest))

/-- Removes the first occurrence of `'#'` from a character list: the
list-level behaviour of JS `replace("#", "")`. -/
def removeFirstHash : List Char → List Char
  | [] => []
  | c :: cs => if c == '#' then cs else c :: removeFirstHash cs

/-- JS `s.replace("#", "")`: removes the first occurrence of `"#"`. -/
def replaceFirstHash (s : String) : String :=
  String.mk (removeFirstHash s.data)

/-- JS `s.toLowerCase()`: character-wise lower-casing (realised on the
character list so that it evaluates by kernel reduction). -/
def toLowerStr (s : String) : String :=
  String.mk (s.data.map Char.toLower)

/-- JS falsiness of an optional string parameter (`!guildIdentifier`):
absent, or present but empty. -/
def isAbsentRef : Option String → Bool
  | none => true
  | some s => s.isEmpty

/-- `client.guilds.fetch(id)`: succeeds exactly on the id of a joined guild,
otherwise throws (modelled as `none`, caught by `findGuild`). -/
def fetchGuildById (st : ClientState) (gid : String) : Option GuildRec :=
  st.guilds.find? (fun g => g.id == gid)

/-- `findGuild` (src/index.ts lines 24-55): resolves a guild by id, falling
back to a case-insensitive name match among joined guilds; with no (or a
falsy) identifier it succeeds only when the bot is in exactly one guild. -/
def findGuild (st : ClientState) (guildIdentifier : Option String) : Option GuildRec :=
  if isAbsentRef guildIdentifier then
    if st.guilds.length == 1 then st.guilds.head? else none
  else
    match guildIdentifier with
    | none => none
    | some gid =>
      match fetchGuildById st gid with
      | some g => some g
      | none =>
        (st.guilds.filter (fun g => toLowerStr g.name == toLowerStr gid)).head?

/-- `client.channels.fetch(id)`: succeeds exactly on the id of a known
channel, otherwise throws (modelled as `none`, caught by `findChannel`). -/
def fetchChannelById (st : ClientState) (cid : String) : Option ChannelRec :=
  st.channels.find? (fun c => c.id == cid)

/-- The channel cache of a guild (`guild.channels.cache`), in the client's
enumeration order. -/
def guildChannels (st : ClientState) (g : GuildRec) : List ChannelRec :=
  st.channels.filter (fun c => c.guildId == g.id)

/-- `findChannel` (src/index.ts lines 58-95): resolves the guild, then tries
`client.channels.fetch` on the identifier; on success accepts the channel
only if it is a text channel of the resolved guild (otherwise returns null
without any name search); on fetch failure falls back to a case-insensitive
name search over the guild's text channels, comparing the identifier both
raw and with `replace("#", "")` applied. -/
def findChannel (st : ClientState) (channelIdentifier : String)
    (guildIdentifier : Option String) : Option ChannelRec :=
  match findGuild st guildIdentifier with
  | none => none
  | some guild =>
    match fetchChannelById st channelIdentifier with
    | some channel =>
      if channel.isText && channel.guildId == guild.id then some channel else none
    | none =>
      ((guildChannels st guild).filter (fun c =>
        c.isText && (toLowerStr c.name == toLowerStr channelIdentifier
          || toLowerStr c.name == replaceFirstHash (toLowerStr channelIdentifier)))).head?

/-- The loop condition of `findLastUserMessage`:
`!msg.author.bot && msg.author.id !== botId`. -/
def qualifiesUser (botId : String) (m : MsgRec) : Bool :=
  !m.authorBot && m.authorId != botId

/-- Stable insertion of a message into a chronologically ascending list,
before the first element not older than it. -/
def insertChron (m : MsgRec) : List MsgRec → List MsgRec
  | [] => [m]
  | x :: xs =>
    if m.createdTimestamp ≤ x.createdTimestamp then m :: x :: xs
    else x :: insertChron m xs

/-- JS `messageArray.sort((a, b) => a.createdTimestamp - b.createdTimestamp)`:
a stable ascending sort by creation timestamp (JS `Array.prototype.sort` is
specified stable; with this comparator its output is the unique stable
ascending reordering, realised here as insertion sort). -/
def sortChron : List MsgRec → List MsgRec
  | [] => []
  | m :: ms => insertChron m (sortChron ms)

/-- `channel.messages.fetch(\x7b limit \x7d)`: up to `limit` most recent
messages of the channel, in the platform's native recency order. -/
def fetchWindow (st : ClientState) (channelId : String) (limit : Int) : List MsgRec :=
  (st.channelMsgs channelId).take limit.toNat

/-- `findLastUserMessage` (src/index.ts lines 98-130): fetches up to
`contextSize` recent messages, sorts them chronologically (oldest first),
and scans from the newest end for the first message whose author is not a
bot and is not the bot itself. -/
def findLastUserMessage (st : ClientState) (channelId : String) (botId : String)
    (contextSize : Int) : Option MsgRec × List MsgRec :=
  let messageArray := fetchWindow st channelId contextSize
  let sortedMessages := sortChron messageArray
  (sortedMessages.reverse.find? (qualifiesUser botId), sortedMessages)

/-- One line of the rendered conversation:
`[BOT-or-USER:username] content`. -/
def conversationLine (m : MsgRec) : String :=
  "[" ++ ((if m.authorBot then "BOT" else "USER") ++ (":" ++ (m.authorName ++ ("] " ++ m.content))))

/-- `formatConversation` (src/index.ts lines 133-140). -/
def formatConversation (messages : List MsgRec) : String :=
  joinSep "\n" (messages.map conversationLine)

/-- A zod issue, as the handler renders it: field path and message. -/
abbrev Issue := String × String

/-- Issue produced by a missing required field (zod `Required`). -/
def requiredIssue (field : String) : Option String → List Issue
  | none => [(field, "Required")]
  | some _ => []

/-- Issues produced by zod `.min(lo).max(hi)` on an optional-with-default
number field. -/
def rangeIssues (field : String) (lo hi : Int) : Option Int → List Issue
  | none => []
  | some n =>
    (if n < lo then [(field, "Number must be greater than or equal to " ++ toString lo)] else [])
      ++ (if hi < n then [(field, "Number must be less than or equal to " ++ toString hi)] else [])

/-- Raw (pre-validation) tool arguments: each declared field either absent
or present. -/
structure RawArgs where
  server : Option String
  channel : Option String
  message : Option String
  limit : Option Int
  contextSize : Option Int
deriving DecidableEq, Repr

/-- Validation issues of `SendMessageSchema` (fields in declaration order:
server optional, channel required, message required). -/
def sendMessageIssues (a : RawArgs) : List Issue :=
  requiredIssue "channel" a.channel ++ requiredIssue "message" a.message

/-- Validation issues of `ReadMessagesSchema`
(server optional, channel required, limit min 1 max 100 default 50). -/
def readMessagesIssues (a : RawArgs) : List Issue :=
  requiredIssue "channel" a.channel ++ rangeIssues "limit" 1 100 a.limit

/-- Validation issues of `ReplyToConversationSchema`
(server optional, channel required, message required,
contextSize min 1 max 50 default 25). -/
def replyToConversationIssues (a : RawArgs) : List Issue :=
  requiredIssue "channel" a.channel ++ requiredIssue "message" a.message
    ++ rangeIssues "contextSize" 1 50 a.contextSize

/-- Parsed `send-message` arguments. -/
structure SendParams where
  server : Option String
  channel : String
  message : String
deriving DecidableEq, Repr

/-- Parsed `read-messages` arguments. -/
structure ReadParams where
  server : Option String
  channel : String
  limit : Int
deriving DecidableEq, Repr

/-- Parsed `reply-to-conversation` arguments. -/
structure ReplyParams where
  server : Option String
  channel : String
  message : String
  contextSize : Int
deriving DecidableEq, Repr

/-- `SendMessageSchema.parse`: zod collects every issue of the object before
throwing; on success the values pass through (required fields are present
when there is no issue, so the defaults of `getD` are never used). -/
def parseSendMessage (a : RawArgs) : Except (List Issue) SendParams :=
  if sendMessageIssues a = [] then
    .ok { server := a.server, channel := a.channel.getD "", message := a.message.getD "" }
  else .error (sendMessageIssues a)

/-- `ReadMessagesSchema.parse` (limit defaults to 50). -/
def parseReadMessages (a : RawArgs) : Except (List Issue) ReadParams :=
  if readMessagesIssues a = [] then
    .ok { server := a.server, channel := a.channel.getD "", limit := a.limit.getD 50 }
  else .error (readMessagesIssues a)

/-- `ReplyToConversationSchema.parse` (contextSize defaults to 25). -/
def parseReplyToConversation (a : RawArgs) : Except (List Issue) ReplyParams :=
  if replyToConversationIssues a = [] then
    .ok { server := a.server, channel := a.channel.getD "",
          message := a.message.getD "", contextSize := a.contextSize.getD 25 }
  else .error (replyToConversationIssues a)

/-- The platform call a handler performed: none, a plain channel send
(`channel.send`), or a threaded reply to a message (`message.reply`). -/
inductive PlatformAction where
  | noAction : PlatformAction
  | sendMsg (channelId content : String) : PlatformAction
  | replyMsg (targetMessageId content : String) : PlatformAction
deriving DecidableEq, Repr

/-- A successful tool result: the text payload and the platform side effect
performed while producing it. -/
structure ToolOutcome where
  text : String
  action : PlatformAction
deriving DecidableEq, Repr

deriving instance DecidableEq for Except

/-- `"name" (id)` guild list item of the error diagnostics. -/
def guildItem (g : GuildRec) : String :=
  "\"" ++ (g.name ++ ("\" (" ++ (g.id ++ ")")))

/-- The joined-guild enumeration of the error diagnostics. -/
def guildList (st : ClientState) : String :=
  joinSep ", " (st.guilds.map guildItem)

/-- `"#name" (id)` channel list item of the error diagnostics. -/
def channelItem (c : ChannelRec) : String :=
  "\"#" ++ (c.name ++ ("\" (" ++ (c.id ++ ")")))

/-- The text channels of a guild, as the diagnostics enumerate them. -/
def textChannelsOf (st : ClientState) (g : GuildRec) : List ChannelRec :=
  (guildChannels st g).filter (fun c => c.isText)

/-- The available-channel enumeration of the error diagnostics. -/
def channelList (st : ClientState) (g : GuildRec) : String :=
  joinSep ", " ((textChannelsOf st g).map channelItem)

/-- The not-found diagnostic text each handler builds (the three handlers
share this construction verbatim, differing only in the prefix). -/
def notFoundText (st : ClientState) (pre : String) (channelIdentifier : String)
    (serverIdentifier : Option String) : String :=
  pre ++
    (if isAbsentRef serverIdentifier && decide (1 < st.guilds.length) then
      "Bot is in multiple servers. Please specify server name or ID. Available servers: "
        ++ guildList st
    else if !isAbsentRef serverIdentifier then
      match serverIdentifier with
      | none => ""  -- unreachable: isAbsentRef none = true
      | some s =>
        match findGuild st (some s) with
        | none =>
          "Server \"" ++ (s ++ ("\" not found. Available servers: " ++ guildList st))
        | some guild =>
          "Channel \"" ++ (channelIdentifier ++ ("\" not found in server \""
            ++ (guild.name ++ ("\". Available channels: " ++ channelList st guild))))
    else "Channel \"" ++ (channelIdentifier ++ "\" not found."))

/-- The `send-message` handler after successful validation
(src/index.ts lines 287-354). -/
def sendMessageTool (st : ClientState) (p : SendParams) : Except String ToolOutcome :=
  match findChannel st p.channel p.server with
  | none =>
    .ok { text := notFoundText st "Could not send message: " p.channel p.server,
          action := .noAction }
  | some channel =>
    .ok { text := "Message sent successfully to #" ++ (channel.name ++ (" in "
            ++ (channel.guildName ++ (". Message ID: " ++ st.nextId)))),
          action := .sendMsg channel.id p.message }

/-- One element of the structured list `read-messages` returns. -/
structure ReadEntry where
  channel : String
  server : String
  author : String
  content : String
  timestamp : String
deriving DecidableEq, Repr

/-- Renders one entry; models `JSON.stringify` on one element (field order
as constructed; string escaping abstracted). -/
def renderEntry (e : ReadEntry) : String :=
  "\x7b\"channel\":\"" ++ (e.channel ++ ("\",\"server\":\"" ++ (e.server
    ++ ("\",\"author\":\"" ++ (e.author ++ ("\",\"content\":\"" ++ (e.content
    ++ ("\",\"timestamp\":\"" ++ (e.timestamp ++ "\"\x7d")))))))))

/-- Models `JSON.stringify(formattedMessages, null, 2)` (whitespace
abstracted): the rendered entries in list order. -/
def renderJson (l : List ReadEntry) : String :=
  "[" ++ (joinSep "," (l.map renderEntry) ++ "]")

/-- The `read-messages` handler after successful validation
(src/index.ts lines 356-433). -/
def readMessagesTool (st : ClientState) (p : ReadParams) : Except String ToolOutcome :=
  match findChannel st p.channel p.server with
  | none =>
    .ok { text := notFoundText st "Could not read messages: " p.channel p.server,
          action := .noAction }
  | some channel =>
    let formattedMessages := (fetchWindow st channel.id p.limit).map (fun m =>
      { channel := "#" ++ channel.name, server := channel.guildName,
        author := m.authorTag, content := m.content,
        timestamp := m.createdAtISO : ReadEntry })
    .ok { text := renderJson formattedMessages, action := .noAction }

/-- The no-qualifying-message diagnostic of `reply-to-conversation`. -/
def noUserText (contextSize : Int) (channelName : String) : String :=
  "No non-bot user messages found in the last "
    ++ (toString contextSize ++ (" messages in #" ++ (channelName ++ ".")))

/-- The confirmation text of a successful `reply-to-conversation`. -/
def repliedText (authorName channelName newId : String) (ctx : List MsgRec) : String :=
  "Replied to " ++ (authorName ++ (" in #" ++ (channelName ++ (". Message ID: "
    ++ (newId ++ ("\n\nConversation Context:\n" ++ formatConversation ctx))))))

/-- The `reply-to-conversation` handler after successful validation
(src/index.ts lines 435-531). -/
def replyToConversationTool (st : ClientState) (p : ReplyParams) : Except String ToolOutcome :=
  match findChannel st p.channel p.server with
  | none =>
    .ok { text := notFoundText st "Could not reply to conversation: " p.channel p.server,
          action := .noAction }
  | some channel =>
    let scan := findLastUserMessage st channel.id st.botId p.contextSize
    match scan.1 with
    | none =>
      .ok { text := noUserText p.contextSize channel.name, action := .noAction }
    | some lastUserMessage =>
      .ok { text := repliedText lastUserMessage.authorName channel.name st.nextId scan.2,
            action := .replyMsg lastUserMessage.id p.message }

/-- The `Invalid arguments:` error the handler throws on a `ZodError`
(src/index.ts lines 536-543). -/
def invalidArgumentsText (issues : List Issue) : String :=
  "Invalid arguments: " ++ joinSep ", " (issues.map (fun i => i.1 ++ (": " ++ i.2)))

/-- The `CallToolRequestSchema` dispatcher (src/index.ts lines 282-546):
validates, runs the tool, converts a `ZodError` into the aggregated
`Invalid arguments` error, and rejects unknown tool names. -/
def callTool (st : ClientState) (name : String) (args : RawArgs) : Except String ToolOutcome :=
  match name with
  | "send-message" =>
    match parseSendMessage args with
    | .error issues => .error (invalidArgumentsText issues)
    | .ok p => sendMessageTool st p
  | "read-messages" =>
    match parseReadMessages args with
    | .error issues => .error (invalidArgumentsText issues)
    | .ok p => readMessagesTool st p
  | "reply-to-conversation" =>
    match parseReplyToConversation args with
    | .error issues => .error (invalidArgumentsText issues)
    | .ok p => replyToConversationTool st p
  | other => .error ("Unknown tool: " ++ other)

/-- Validation issues of the schema the named tool declares. -/
def toolIssues (name : String) (a : RawArgs) : List Issue :=
  match name with
  | "send-message" => sendMessageIssues a
  | "read-messages" => readMessagesIssues a
  | "reply-to-conversation" => replyToConversationIssues a
  | _ => []

/-- Spec-side helper (vocabulary of claim C3): the reference with a leading
marker character stripped. -/
def stripLeadHash (s : String) : String :=
  match s.data with
  | [] => s
  | c :: t => if c == '#' then String.mk t else s

/-- Spec-side helper: the string contains no marker character. -/
def hashFree (s : String) : Bool :=
  s.data.all (fun c => !(c == '#'))

/-- `sub` is an initial segment of `hay` (character lists). -/
def begWith : List Char → List Char → Bool
  | [], _ => true
  | _ :: _, [] => false
  | c :: cs, h :: hs => c == h && begWith cs hs

/-- `sub` occurs contiguously somewhere in `hay` (character lists). -/
def strHas : List Char → List Char → Bool
  | [], sub => sub.isEmpty
  | c :: t, sub => begWith sub (c :: t) || strHas t sub

/-- The needle string occurs contiguously in the haystack string. -/
def containsStr (hay sub : String) : Bool :=
  strHas hay.data sub.data

/- Concrete fixtures used by witnesses and counterexamples. -/

/-- A joined guild named Alpha. -/
def alphaGuild : GuildRec := ⟨"g1", "Alpha"⟩

/-- A second joined guild named Beta. -/
def betaGuild : GuildRec := ⟨"g2", "Beta"⟩

/-- A text channel `#general` of Alpha. -/
def generalChannel : ChannelRec := ⟨"c1", "general", "g1", "Alpha", true⟩

/-- A text channel `#ab` of Alpha. -/
def abChannel : ChannelRec := ⟨"cab", "ab", "g1", "Alpha", true⟩

/-- A non-text (voice) channel of Alpha whose id is `c9`. -/
def voiceChannel : ChannelRec := ⟨"c9", "voice-chat", "g1", "Alpha", false⟩

/-- A text channel of Alpha whose display name is `c9`. -/
def namedC9Channel : ChannelRec := ⟨"c2", "c9", "g1", "Alpha", true⟩

/-- A human-authored message by Jane (timestamp 10). -/
def msgJane : MsgRec :=
  ⟨"m3", "U1", "Jane", "Jane#1", false, "ok", 10, "2024-01-01T00:00:10.000Z"⟩

/-- A human-authored message by Tom (timestamp 5, older than Jane's). -/
def msgTom : MsgRec :=
  ⟨"m4", "U2", "Tom", "Tom#2", false, "hey", 5, "2024-01-01T00:00:05.000Z"⟩

/-- An automated-author message (timestamp 20). -/
def msgAuto : MsgRec :=
  ⟨"m2", "A1", "Helper", "Helper#2", true, "auto", 20, "2024-01-01T00:00:20.000Z"⟩

/-- The bot's own message (timestamp 30, newest). -/
def msgOwn : MsgRec :=
  ⟨"m1", "B", "MyBot", "MyBot#0", true, "hi", 30, "2024-01-01T00:00:30.000Z"⟩

/-- A client joined to exactly one guild, with channels and a conversation
in `#general` whose native (newest-first) order is
own, automated, Jane, Tom. -/
def singleState : ClientState :=
  { guilds := [alphaGuild],
    channels := [generalChannel, abChannel, voiceChannel, namedC9Channel],
    channelMsgs := fun c => if c == "c1" then [msgOwn, msgAuto, msgJane, msgTom] else [],
    botId := "B", nextId := "M9" }

/-- A client joined to two guilds; channel `c1` belongs to the first. -/
def multiState : ClientState :=
  { guilds := [alphaGuild, betaGuild],
    channels := [generalChannel],
    channelMsgs := fun _ => [], botId := "B", nextId := "M9" }

/- String-containment infrastructure. -/

theorem data_append (s t : String) : (s ++ t).data = s.data ++ t.data := rfl

theorem begWith_refl (l : List Char) : begWith l l = true := by
  induction l with
  | nil => rfl
  | cons c t ih => simp [begWith, ih]

theorem begWith_extend (x h b : List Char) (hx : begWith x h = true) :
    begWith x (h ++ b) = true := by
  induction x generalizing h with
  | nil => rfl
  | cons c cs ih =>
    cases h with
    | nil => simp [begWith] at hx
    | cons d hs =>
      simp only [begWith, Bool.and_eq_true] at hx
      simp only [List.cons_append, begWith, Bool.and_eq_true]
      exact ⟨hx.1, ih hs hx.2⟩

theorem strHas_nil_needle (l : List Char) : strHas l [] = true := by
  cases l <;> simp [strHas, begWith]

theorem strHas_self (l : List Char) : strHas l l = true := by
  cases l with
  | nil => rfl
  | cons c t => simp [strHas, begWith_refl]

theorem strHas_appL (a t x : List Char) (h : strHas t x = true) :
    strHas (a ++ t) x = true := by
  induction a with
  | nil => simpa using h
  | cons c a2 ih => simp [strHas, ih]

theorem strHas_appR (t b x : List Char) (h : strHas t x = true) :
    strHas (t ++ b) x = true := by
  induction t with
  | nil =>
    have hx : x = [] := by simpa [strHas, List.isEmpty_iff] using h
    subst hx
    exact strHas_nil_needle b
  | cons c t2 ih =>
    have h2 : begWith x (c :: t2) = true ∨ strHas t2 x = true := by
      simpa [strHas, Bool.or_eq_true] using h
    rcases h2 with hb | hs
    · have := begWith_extend x (c :: t2) b hb
      simp only [List.cons_append] at this ⊢
      simp [strHas, this]
    · simp only [List.cons_append]
      simp [strHas, ih hs]

theorem containsStr_self (s : String) : containsStr s s = true :=
  strHas_self s.data

theorem containsStr_appL (a t x : String) (h : containsStr t x = true) :
    containsStr (a ++ t) x = true := by
  unfold containsStr at h ⊢
  rw [data_append]
  exact strHas_appL _ _ _ h

theorem containsStr_appR (t b x : String) (h : containsStr t x = true) :
    containsStr (t ++ b) x = true := by
  unfold containsStr at h ⊢
  rw [data_append]
  exact strHas_appR _ _ _ h

theorem joinSep_contains (sep : String) (l : List String) (x : String) (hx : x ∈ l) :
    containsStr (joinSep sep l) x = true := by
  induction l with
  | nil => cases hx
  | cons a rest ih =>
    cases rest with
    | nil =>
      have hxa : x = a := by simpa using hx
      subst hxa
      exact containsStr_self x
    | cons b rest2 =>
      rcases List.mem_cons.mp hx with h1 | h2
      · subst h1
        exact containsStr_appR x _ x (containsStr_self x)
      · exact containsStr_appL a _ x (containsStr_appL sep _ x (ih h2))

/- Sorting lemmas for the chronological reordering. -/

theorem insertChron_perm (m : MsgRec) (l : List MsgRec) :
    List.Perm (insertChron m l) (m :: l) := by
  induction l with
  | nil => exact List.Perm.refl _
  | cons x xs ih =>
    unfold insertChron
    by_cases h : m.createdTimestamp ≤ x.createdTimestamp
    · rw [if_pos h]
    · rw [if_neg h]
      exact (ih.cons x).trans (List.Perm.swap m x xs)

theorem sortChron_perm (l : List MsgRec) : List.Perm (sortChron l) l := by
  induction l with
  | nil => exact List.Perm.refl _
  | cons m ms ih => exact (insertChron_perm m (sortChron ms)).trans (ih.cons m)

theorem insertChron_pairwise (m : MsgRec) (l : List MsgRec)
    (h : l.Pairwise (fun a b => a.createdTimestamp ≤ b.createdTimestamp)) :
    (insertChron m l).Pairwise (fun a b => a.createdTimestamp ≤ b.createdTimestamp) := by
  induction l with
  | nil => simp [insertChron]
  | cons x xs ih =>
    rcases List.pairwise_cons.mp h with ⟨hx, hxs⟩
    unfold insertChron
    by_cases hle : m.createdTimestamp ≤ x.createdTimestamp
    · rw [if_pos hle]
      refine List.pairwise_cons.mpr ⟨?_, h⟩
      intro a ha
      rcases List.mem_cons.mp ha with h1 | h2
      · subst h1; exact hle
      · exact le_trans hle (hx a h2)
    · rw [if_neg hle]
      refine List.pairwise_cons.mpr ⟨?_, ih hxs⟩
      intro a ha
      have ha2 : a ∈ m :: xs := (insertChron_perm m xs).mem_iff.mp ha
      rcases List.mem_cons.mp ha2 with h1 | h2
      · subst h1; exact le_of_lt (lt_of_not_le hle)
      · exact hx a h2

theorem sortChron_pairwise (l : List MsgRec) :
    (sortChron l).Pairwise (fun a b => a.createdTimestamp ≤ b.createdTimestamp) := by
  induction l with
  | nil => simp [sortChron]
  | cons m ms ih => exact insertChron_pairwise m (sortChron ms) ih

theorem find?_desc_max {p : MsgRec → Bool} :
    ∀ (l : List MsgRec),
      l.Pairwise (fun a b => b.createdTimestamp ≤ a.createdTimestamp) →
      ∀ (r : MsgRec), l.find? p = some r →
      ∀ m ∈ l, p m = true → m.createdTimestamp ≤ r.createdTimestamp := by
  intro l
  induction l with
  | nil =>
    intro _ r hr
    simp at hr
  | cons a t ih =>
    intro hp r hr m hm hpm
    rcases List.pairwise_cons.mp hp with ⟨ha, ht⟩
    by_cases hpa : p a = true
    · rw [List.find?_cons_of_pos t hpa] at hr
      injection hr with hra
      subst hra
      rcases List.mem_cons.mp hm with h1 | h2
      · subst h1; exact le_refl _
      · exact ha m h2
    · rw [List.find?_cons_of_neg t hpa] at hr
      rcases List.mem_cons.mp hm with h1 | h2
      · subst h1; exact absurd hpm hpa
      · exact ih ht r hr m h2 hpm

/-- Claim C1: for every client state, channel, bot identifier and window
size, `findLastUserMessage` returns `none` exactly when no fetched message
has a non-automated author distinct from the bot, and otherwise returns a
fetched message satisfying both conditions whose creation timestamp is
maximal among all such messages (so the newest qualifying message, even
when it is not the window's overall newest message). -/
theorem c1_findLastUserMessage_newest (st : ClientState) (channelId botId : String)
    (n : Int) :
    ((findLastUserMessage st channelId botId n).1 = none ↔
      ∀ m ∈ fetchWindow st channelId n, qualifiesUser botId m = false)
    ∧ ∀ m, (findLastUserMessage st channelId botId n).1 = some m →
        m ∈ fetchWindow st channelId n ∧ qualifiesUser botId m = true ∧
        ∀ m2 ∈ fetchWindow st channelId n, qualifiesUser botId m2 = true →
          m2.createdTimestamp ≤ m.createdTimestamp := by
  have hres : (findLastUserMessage st channelId botId n).1
      = (sortChron (fetchWindow st channelId n)).reverse.find? (qualifiesUser botId) := rfl
  have hperm := sortChron_perm (fetchWindow st channelId n)
  have hmem : ∀ x : MsgRec,
      x ∈ (sortChron (fetchWindow st channelId n)).reverse ↔ x ∈ fetchWindow st channelId n := by
    intro x
    rw [List.mem_reverse]
    exact hperm.mem_iff
  constructor
  · rw [hres, List.find?_eq_none]
    constructor
    · intro h m hm
      have := h m ((hmem m).mpr hm)
      simpa [Bool.not_eq_true] using this
    · intro h x hx
      have := h x ((hmem x).mp hx)
      simp [this]
  · intro m hm
    rw [hres] at hm
    refine ⟨(hmem m).mp (List.mem_of_find?_eq_some hm), List.find?_some hm, ?_⟩
    intro m2 hm2 hq
    have hdesc : ((sortChron (fetchWindow st channelId n)).reverse).Pairwise
        (fun a b => b.createdTimestamp ≤ a.createdTimestamp) := by
      rw [List.pairwise_reverse]
      exact sortChron_pairwise (fetchWindow st channelId n)
    exact find?_desc_max _ hdesc m hm m2 ((hmem m2).mpr hm2) hq

/-- Witness for C1: in the fixture conversation the scanner returns Jane's
message (timestamp 10), which qualifies, although the window's overall
newest message is the bot's own (timestamp 30); Tom's older qualifying
message is bounded by it. -/
theorem c1_witness :
    (findLastUserMessage singleState "c1" "B" 4).1 = some msgJane
    ∧ msgJane ∈ fetchWindow singleState "c1" 4
    ∧ qualifiesUser "B" msgJane = true
    ∧ msgTom.createdTimestamp ≤ msgJane.createdTimestamp
    ∧ msgOwn ∈ fetchWindow singleState "c1" 4
    ∧ msgJane.createdTimestamp < msgOwn.createdTimestamp := by
  have h := (c1_findLastUserMessage_newest singleState "c1" "B" 4).2 msgJane (by decide)
  exact ⟨by decide, h.1, h.2.1, h.2.2 msgTom (by decide) (by decide), by decide, by decide⟩

/-- Claim C2: with an absent server reference, `findGuild` returns the
single joined guild when the client is joined to exactly one, and `none`
(NotFound) when joined to zero or to two or more. -/
theorem c2_findGuild_absent (st : ClientState) :
    (∀ g, st.guilds = [g] → findGuild st none = some g)
    ∧ (st.guilds.length ≠ 1 → findGuild st none = none) := by
  constructor
  · intro g hg
    simp [findGuild, isAbsentRef, hg]
  · intro h
    have hb : (st.guilds.length == 1) = false := by simpa using h
    simp [findGuild, isAbsentRef, hb]

/-- Witness for C2: one joined guild resolves to it; two joined guilds give
`none`. -/
theorem c2_witness :
    findGuild singleState none = some alphaGuild
    ∧ findGuild multiState none = none :=
  ⟨(c2_findGuild_absent singleState).1 alphaGuild rfl,
   (c2_findGuild_absent multiState).2 (by decide)⟩

/-- Claim C9: for every client state, channel and window size, the
conversation context returned by `findLastUserMessage` is a permutation of
the fetched window, ordered oldest-to-newest by creation timestamp,
whatever order the platform delivered the messages in. -/
theorem c9_conversation_context_sorted (st : ClientState) (channelId botId : String)
    (n : Int) :
    List.Perm (findLastUserMessage st channelId botId n).2 (fetchWindow st channelId n)
    ∧ ((findLastUserMessage st channelId botId n).2).Pairwise
        (fun a b => a.createdTimestamp ≤ b.createdTimestamp) :=
  ⟨sortChron_perm _, sortChron_pairwise _⟩

theorem removeFirstHash_of_hashFree (l : List Char)
    (h : l.all (fun c => !(c == '#')) = true) : removeFirstHash l = l := by
  induction l with
  | nil => rfl
  | cons c cs ih =>
    simp only [List.all_cons, Bool.and_eq_true] at h
    have hc : (c == '#') = false := by simpa using h.1
    simp [removeFirstHash, hc, ih h.2]

theorem nameMatch_normalize (s u nm : String)
    (hu : stripLeadHash s = u) (hfree : hashFree u = true) (hnm : hashFree nm = true) :
    ((nm == s) || (nm == replaceFirstHash s)) = (nm == u) := by
  obtain ⟨sd⟩ := s
  cases sd with
  | nil =>
    subst hu
    simp [stripLeadHash, replaceFirstHash, removeFirstHash]
  | cons c t =>
    by_cases hc : c = '#'
    · subst hc
      have hu2 : u = String.mk t := by rw [← hu]; simp [stripLeadHash]
      subst hu2
      have hrep : replaceFirstHash (String.mk ('#' :: t)) = String.mk t := by
        simp [replaceFirstHash, removeFirstHash]
      rw [hrep]
      have hne : (nm == String.mk ('#' :: t)) = false := by
        have hne2 : nm ≠ String.mk ('#' :: t) := by
          intro he
          have hd : nm.data = '#' :: t := by rw [he]
          have := List.all_eq_true.mp hnm '#' (by rw [hd]; exact List.mem_cons_self _ _)
          simp at this
        simpa using hne2
      rw [hne]
      simp
    · have hu2 : u = String.mk (c :: t) := by
        rw [← hu]; simp [stripLeadHash, hc]
      subst hu2
      have hrep : replaceFirstHash (String.mk (c :: t)) = String.mk (c :: t) := by
        unfold replaceFirstHash
        rw [removeFirstHash_of_hashFree _ hfree]
      rw [hrep, Bool.or_self]

/-- Claim C3 (amended): channel name references that differ only in letter
case or in the presence of the leading marker character resolve
identically when identifier lookup fails for both, provided the marker
occurs in the references only as that leading character and in no channel
display name. -/
theorem c3_case_and_marker_insensitive (st : ClientState) (sv : Option String)
    (r1 r2 : String)
    (hid1 : fetchChannelById st r1 = none)
    (hid2 : fetchChannelById st r2 = none)
    (hrel : stripLeadHash (toLowerStr r1) = stripLeadHash (toLowerStr r2))
    (hfree : hashFree (stripLeadHash (toLowerStr r1)) = true)
    (hch : ∀ c ∈ st.channels, hashFree (toLowerStr c.name) = true) :
    findChannel st r1 sv = findChannel st r2 sv := by
  unfold findChannel
  cases hg : findGuild st sv with
  | none => rfl
  | some guild =>
    have hfil : (guildChannels st guild).filter (fun c =>
          c.isText && (toLowerStr c.name == toLowerStr r1
            || toLowerStr c.name == replaceFirstHash (toLowerStr r1)))
        = (guildChannels st guild).filter (fun c =>
          c.isText && (toLowerStr c.name == toLowerStr r2
            || toLowerStr c.name == replaceFirstHash (toLowerStr r2))) := by
      apply List.filter_congr
      intro c hc
      have hcm : c ∈ st.channels := by
        unfold guildChannels at hc
        exact (List.mem_filter.mp hc).1
      have k1 := nameMatch_normalize (toLowerStr r1) (stripLeadHash (toLowerStr r1))
        (toLowerStr c.name) rfl hfree (hch c hcm)
      have k2 := nameMatch_normalize (toLowerStr r2) (stripLeadHash (toLowerStr r1))
        (toLowerStr c.name) hrel.symm hfree (hch c hcm)
      simp only [k1, k2]
    simp only [hid1, hid2, hfil]

/-- Counterexample for C3 as stated: the references `a#b` and `#a#b` differ
only in the leading marker character (their lead-stripped lowercase forms
agree), identifier lookup fails for both, yet one resolves to the channel
named `ab` (the code removes the first `#` anywhere, not only a leading
one) and the other resolves to nothing. -/
theorem c3_counterexample :
    stripLeadHash (toLowerStr "#a#b") = stripLeadHash (toLowerStr "a#b")
    ∧ fetchChannelById singleState "a#b" = none
    ∧ fetchChannelById singleState "#a#b" = none
    ∧ findChannel singleState "a#b" none = some abChannel
    ∧ findChannel singleState "#a#b" none = none := by decide

/-- Witness for C3 (amended): `#GENERAL` and `general` differ only in case
and the leading marker, and resolve to the same channel. -/
theorem c3_witness :
    findChannel singleState "#GENERAL" none = findChannel singleState "general" none
    ∧ findChannel singleState "general" none = some generalChannel := by
  refine ⟨c3_case_and_marker_insensitive singleState none "#GENERAL" "general"
    (by decide) (by decide) (by decide) (by decide) ?_, by decide⟩
  intro c hc
  fin_cases hc <;> decide

/-- Claim C4 (amended): a channel reference equal to a known text channel's
identifier resolves to exactly that channel whenever server resolution
(of the given reference, or of the absent reference) succeeds and yields
the guild owning the channel. -/
theorem c4_id_lookup_with_matching_server (st : ClientState) (r : String)
    (sv : Option String) (g : GuildRec) (c : ChannelRec)
    (hg : findGuild st sv = some g)
    (hc : fetchChannelById st r = some c)
    (ht : c.isText = true)
    (hgid : c.guildId = g.id) :
    findChannel st r sv = some c := by
  unfold findChannel
  have hcond : (c.isText && (c.guildId == g.id)) = true := by simp [ht, hgid]
  simp only [hg, hc, hcond, if_true]

/-- Counterexample for C4 as stated: `c1` is a known text channel's
identifier and no server hint is given (so the claim's proviso is vacuous),
yet with two joined guilds `findChannel` returns `none` because absent
server resolution fails before the identifier is ever looked up. -/
theorem c4_counterexample :
    fetchChannelById multiState "c1" = some generalChannel
    ∧ generalChannel.isText = true
    ∧ findChannel multiState "c1" none = none := by decide

/-- Witness for C4 (amended): with the server hint `Alpha` resolving to the
guild owning `c1`, the identifier resolves to that channel even with two
guilds joined. -/
theorem c4_witness :
    findChannel multiState "c1" (some "Alpha") = some generalChannel :=
  c4_id_lookup_with_matching_server multiState "c1" (some "Alpha") alphaGuild
    generalChannel (by decide) (by decide) (by decide) (by decide)

/-- Claim C10: when the identifier fetch succeeds but the fetched channel
is not text-capable or belongs to a guild other than the resolved one,
`findChannel` returns `none` unconditionally — the name-based fallback
never runs. -/
theorem c10_no_name_fallback_on_id_success (st : ClientState) (r : String)
    (sv : Option String) (g : GuildRec) (c : ChannelRec)
    (hg : findGuild st sv = some g)
    (hc : fetchChannelById st r = some c)
    (hbad : c.isText = false ∨ c.guildId ≠ g.id) :
    findChannel st r sv = none := by
  unfold findChannel
  have hcond : (c.isText && (c.guildId == g.id)) = false := by
    rcases hbad with h | h
    · simp [h]
    · simp [h]
  simp [hg, hc, hcond]

/-- Witness for C10: the reference `c9` is the id of a non-text channel, so
resolution yields `none`, even though a text channel named `c9` exists in
the guild and the name-based search would have found it. -/
theorem c10_witness :
    findChannel singleState "c9" none = none
    ∧ fetchChannelById singleState "c9" = some voiceChannel
    ∧ voiceChannel.isText = false
    ∧ namedC9Channel ∈ guildChannels singleState alphaGuild
    ∧ namedC9Channel.isText = true
    ∧ namedC9Channel.name = "c9" := by
  refine ⟨c10_no_name_fallback_on_id_success singleState "c9" none alphaGuild
    voiceChannel (by decide) (by decide) (Or.inl (by decide)),
    by decide, by decide, by decide, by decide, by decide⟩

/-- Claim C5 (amended): when channel resolution fails, each of the three
tools returns a successful text result (never an exception) whose
diagnostic enumerates the joined servers (no-server-given multi-server
case and unknown-server case) or the resolved server's text channels
(channel-not-found case) — except when no server parameter was given and
at most one server is joined, where the text only states that the channel
was not found; with multiple servers joined and no server given, the text
is exactly the multiple-servers message listing every joined server's name
and id. -/
theorem c5_channel_notfound_diagnostics (st : ClientState) :
    (∀ p : SendParams, findChannel st p.channel p.server = none →
      sendMessageTool st p
        = .ok ⟨notFoundText st "Could not send message: " p.channel p.server, .noAction⟩)
    ∧ (∀ p : ReadParams, findChannel st p.channel p.server = none →
      readMessagesTool st p
        = .ok ⟨notFoundText st "Could not read messages: " p.channel p.server, .noAction⟩)
    ∧ (∀ p : ReplyParams, findChannel st p.channel p.server = none →
      replyToConversationTool st p
        = .ok ⟨notFoundText st "Could not reply to conversation: " p.channel p.server,
               .noAction⟩)
    ∧ (∀ pre ch sv, isAbsentRef sv = true → 1 < st.guilds.length →
      notFoundText st pre ch sv
        = pre ++ ("Bot is in multiple servers. Please specify server name or ID. Available servers: "
            ++ guildList st)
      ∧ ∀ g ∈ st.guilds, containsStr (notFoundText st pre ch sv) (guildItem g) = true)
    ∧ (∀ pre ch s, s.isEmpty = false → findGuild st (some s) = none →
      ∀ g ∈ st.guilds, containsStr (notFoundText st pre ch (some s)) (guildItem g) = true)
    ∧ (∀ pre ch s g, s.isEmpty = false → findGuild st (some s) = some g →
      ∀ c ∈ textChannelsOf st g,
        containsStr (notFoundText st pre ch (some s)) (channelItem c) = true)
    ∧ (∀ pre ch sv, isAbsentRef sv = true → st.guilds.length ≤ 1 →
      containsStr (notFoundText st pre ch sv)
        ("Channel \"" ++ (ch ++ "\" not found.")) = true) := by
  refine ⟨?_, ?_, ?_, ?_, ?_, ?_, ?_⟩
  · intro p h
    simp only [sendMessageTool, h]
  · intro p h
    simp only [readMessagesTool, h]
  · intro p h
    simp only [replyToConversationTool, h]
  · intro pre ch sv h1 h2
    have hd : decide (1 < st.guilds.length) = true := decide_eq_true h2
    have htext : notFoundText st pre ch sv
        = pre ++ ("Bot is in multiple servers. Please specify server name or ID. Available servers: "
            ++ guildList st) := by
      simp [notFoundText, h1, hd]
    refine ⟨htext, ?_⟩
    intro g hg
    rw [htext]
    exact containsStr_appL _ _ _ (containsStr_appL _ _ _
      (joinSep_contains _ _ _ (List.mem_map_of_mem guildItem hg)))
  · intro pre ch s hs hng g hg
    have htext : notFoundText st pre ch (some s)
        = pre ++ ("Server \"" ++ (s ++ ("\" not found. Available servers: " ++ guildList st))) := by
      simp [notFoundText, isAbsentRef, hs, hng]
    rw [htext]
    exact containsStr_appL _ _ _ (containsStr_appL _ _ _ (containsStr_appL _ _ _
      (containsStr_appL _ _ _
        (joinSep_contains _ _ _ (List.mem_map_of_mem guildItem hg)))))
  · intro pre ch s g hs hfg c hc
    have htext : notFoundText st pre ch (some s)
        = pre ++ ("Channel \"" ++ (ch ++ ("\" not found in server \""
            ++ (g.name ++ ("\". Available channels: " ++ channelList st g))))) := by
      simp [notFoundText, isAbsentRef, hs, hfg]
    rw [htext]
    exact containsStr_appL _ _ _ (containsStr_appL _ _ _ (containsStr_appL _ _ _
      (containsStr_appL _ _ _ (containsStr_appL _ _ _
        (joinSep_contains _ _ _ (List.mem_map_of_mem channelItem hc))))))
  · intro pre ch sv h1 h2
    have hd : decide (1 < st.guilds.length) = false := decide_eq_false (not_lt.mpr h2)
    have htext : notFoundText st pre ch sv
        = pre ++ ("Channel \"" ++ (ch ++ "\" not found.")) := by
      simp [notFoundText, h1, hd]
    rw [htext]
    exact containsStr_appL _ _ _ (containsStr_self _)

/-- Counterexample for C5 as stated: with one joined server (holding a
known channel) and no server parameter, a failed channel resolution yields
the text `Channel "xyz" not found.`, which enumerates neither the joined
server nor any channel — the server name, server id, channel name and
channel id all fail to occur in it. -/
theorem c5_counterexample :
    callTool singleState "read-messages" ⟨none, some "xyz", none, none, none⟩
      = .ok ⟨"Could not read messages: Channel \"xyz\" not found.", .noAction⟩
    ∧ singleState.guilds = [alphaGuild]
    ∧ generalChannel ∈ singleState.channels
    ∧ containsStr "Could not read messages: Channel \"xyz\" not found." "Alpha" = false
    ∧ containsStr "Could not read messages: Channel \"xyz\" not found." "g1" = false
    ∧ containsStr "Could not read messages: Channel \"xyz\" not found." "general" = false
    ∧ containsStr "Could not read messages: Channel \"xyz\" not found." "c1" = false := by
  decide

/-- Witness for C5 (amended): with two joined servers and no server
parameter, the read-messages diagnostic is the exact multiple-servers text
and contains both servers' name-and-id items. -/
theorem c5_witness :
    readMessagesTool multiState ⟨none, "xyz", 50⟩
      = .ok ⟨notFoundText multiState "Could not read messages: " "xyz" none, .noAction⟩
    ∧ notFoundText multiState "Could not read messages: " "xyz" none
      = "Could not read messages: "
        ++ ("Bot is in multiple servers. Please specify server name or ID. Available servers: "
            ++ guildList multiState)
    ∧ containsStr (notFoundText multiState "Could not read messages: " "xyz" none)
        (guildItem alphaGuild) = true
    ∧ containsStr (notFoundText multiState "Could not read messages: " "xyz" none)
        (guildItem betaGuild) = true := by
  have h := c5_channel_notfound_diagnostics multiState
  have h1 := h.2.1 ⟨none, "xyz", 50⟩ (by decide)
  have h4 := h.2.2.2.1 "Could not read messages: " "xyz" none rfl (by decide)
  exact ⟨h1, h4.1, h4.2 alphaGuild (by decide), h4.2 betaGuild (by decide)⟩

/-- Claim C6: arguments violating a tool's declared schema fail before any
resolution or platform call (the result does not depend on the client
state) with a single error whose text lists every violated field path with
its reason, comma-joined. -/
theorem c6_validation_short_circuits (st st2 : ClientState) (name : String)
    (args : RawArgs)
    (hname : name = "send-message" ∨ name = "read-messages"
      ∨ name = "reply-to-conversation")
    (hbad : toolIssues name args ≠ []) :
    callTool st name args = .error (invalidArgumentsText (toolIssues name args))
    ∧ callTool st name args = callTool st2 name args
    ∧ ∀ i ∈ toolIssues name args,
        containsStr (invalidArgumentsText (toolIssues name args))
          (i.1 ++ (": " ++ i.2)) = true := by
  have hcont : ∀ i ∈ toolIssues name args,
      containsStr (invalidArgumentsText (toolIssues name args))
        (i.1 ++ (": " ++ i.2)) = true := by
    intro i hi
    have hm : (i.1 ++ (": " ++ i.2))
        ∈ (toolIssues name args).map (fun j => j.1 ++ (": " ++ j.2)) :=
      List.mem_map_of_mem _ hi
    exact containsStr_appL _ _ _ (joinSep_contains _ _ _ hm)
  rcases hname with h | h | h <;> subst h
  · have hb : sendMessageIssues args ≠ [] := hbad
    have hcall : ∀ s : ClientState, callTool s "send-message" args
        = .error (invalidArgumentsText (sendMessageIssues args)) := by
      intro s
      simp [callTool, parseSendMessage, hb]
    exact ⟨hcall st, (hcall st).trans (hcall st2).symm, hcont⟩
  · have hb : readMessagesIssues args ≠ [] := hbad
    have hcall : ∀ s : ClientState, callTool s "read-messages" args
        = .error (invalidArgumentsText (readMessagesIssues args)) := by
      intro s
      simp [callTool, parseReadMessages, hb]
    exact ⟨hcall st, (hcall st).trans (hcall st2).symm, hcont⟩
  · have hb : replyToConversationIssues args ≠ [] := hbad
    have hcall : ∀ s : ClientState, callTool s "reply-to-conversation" args
        = .error (invalidArgumentsText (replyToConversationIssues args)) := by
      intro s
      simp [callTool, parseReplyToConversation, hb]
    exact ⟨hcall st, (hcall st).trans (hcall st2).symm, hcont⟩

/-- Witness for C6: `limit = 0` on read-messages fails with the
field-path-qualified message, identically on two different client
states. -/
theorem c6_witness :
    callTool singleState "read-messages" ⟨none, some "general", none, some 0, none⟩
      = .error "Invalid arguments: limit: Number must be greater than or equal to 1"
    ∧ callTool singleState "read-messages" ⟨none, some "general", none, some 0, none⟩
      = callTool multiState "read-messages" ⟨none, some "general", none, some 0, none⟩ := by
  have h := c6_validation_short_circuits singleState multiState "read-messages"
    ⟨none, some "general", none, some 0, none⟩ (Or.inr (Or.inl rfl)) (by decide)
  refine ⟨h.1.trans (congrArg Except.error (by decide)), h.2.1⟩

/-- Claim C7: on a resolved channel, `reply-to-conversation` either (no
qualifying message) returns a diagnostic naming the channel and the window
size, or replies with a platform-native threaded reply addressed to the
located message — not a plain send — and returns a confirmation containing
the target author's name, the channel name, the new message's id, and the
rendered transcript line of every message of the scanned window. -/
theorem c7_reply_to_conversation (st : ClientState) (p : ReplyParams)
    (channel : ChannelRec)
    (hch : findChannel st p.channel p.server = some channel) :
    ((findLastUserMessage st channel.id st.botId p.contextSize).1 = none →
      replyToConversationTool st p
        = .ok ⟨noUserText p.contextSize channel.name, .noAction⟩
      ∧ containsStr (noUserText p.contextSize channel.name) channel.name = true
      ∧ containsStr (noUserText p.contextSize channel.name)
          (toString p.contextSize) = true)
    ∧ ∀ lm, (findLastUserMessage st channel.id st.botId p.contextSize).1 = some lm →
      replyToConversationTool st p
        = .ok ⟨repliedText lm.authorName channel.name st.nextId
                 (findLastUserMessage st channel.id st.botId p.contextSize).2,
               .replyMsg lm.id p.message⟩
      ∧ containsStr (repliedText lm.authorName channel.name st.nextId
          (findLastUserMessage st channel.id st.botId p.contextSize).2)
          lm.authorName = true
      ∧ containsStr (repliedText lm.authorName channel.name st.nextId
          (findLastUserMessage st channel.id st.botId p.contextSize).2)
          channel.name = true
      ∧ containsStr (repliedText lm.authorName channel.name st.nextId
          (findLastUserMessage st channel.id st.botId p.contextSize).2)
          st.nextId = true
      ∧ ∀ m ∈ (findLastUserMessage st channel.id st.botId p.contextSize).2,
          containsStr (repliedText lm.authorName channel.name st.nextId
            (findLastUserMessage st channel.id st.botId p.contextSize).2)
            (conversationLine m) = true := by
  constructor
  · intro hnone
    refine ⟨?_, ?_, ?_⟩
    · simp only [replyToConversationTool, hch, hnone]
    · exact containsStr_appL _ _ _ (containsStr_appL _ _ _ (containsStr_appL _ _ _
        (containsStr_appR _ _ _ (containsStr_self _))))
    · exact containsStr_appL _ _ _ (containsStr_appR _ _ _ (containsStr_self _))
  · intro lm hsome
    refine ⟨?_, ?_, ?_, ?_, ?_⟩
    · simp only [replyToConversationTool, hch, hsome]
    · exact containsStr_appL _ _ _ (containsStr_appR _ _ _ (containsStr_self _))
    · exact containsStr_appL _ _ _ (containsStr_appL _ _ _ (containsStr_appL _ _ _
        (containsStr_appR _ _ _ (containsStr_self _))))
    · exact containsStr_appL _ _ _ (containsStr_appL _ _ _ (containsStr_appL _ _ _
        (containsStr_appL _ _ _ (containsStr_appL _ _ _
          (containsStr_appR _ _ _ (containsStr_self _))))))
    · intro m hm
      exact containsStr_appL _ _ _ (containsStr_appL _ _ _ (containsStr_appL _ _ _
        (containsStr_appL _ _ _ (containsStr_appL _ _ _ (containsStr_appL _ _ _
          (containsStr_appL _ _ _
            (joinSep_contains _ _ _ (List.mem_map_of_mem conversationLine hm))))))))

/-- Witness for C7: in the fixture conversation the tool issues a threaded
reply to Jane's message `m3` (not a plain send) and the confirmation
contains her name. -/
theorem c7_witness :
    replyToConversationTool singleState ⟨none, "general", "hello", 4⟩
      = .ok ⟨repliedText "Jane" "general" "M9"
               (findLastUserMessage singleState "c1" "B" 4).2,
             .replyMsg "m3" "hello"⟩
    ∧ containsStr (repliedText "Jane" "general" "M9"
        (findLastUserMessage singleState "c1" "B" 4).2) "Jane" = true := by
  have h := (c7_reply_to_conversation singleState ⟨none, "general", "hello", 4⟩
    generalChannel (by decide)).2 msgJane (by decide)
  exact ⟨h.1, h.2.1⟩

/-- Claim C8: a successful read-messages invocation returns the fetched
messages in the platform's native recency order, not re-sorted, each entry
carrying exactly the channel name, server name, author tag, content and
the ISO-8601 creation timestamp. -/
theorem c8_read_messages_native_order (st : ClientState) (p : ReadParams)
    (channel : ChannelRec)
    (hch : findChannel st p.channel p.server = some channel) :
    readMessagesTool st p
      = .ok ⟨renderJson ((fetchWindow st channel.id p.limit).map (fun m =>
          { channel := "#" ++ channel.name, server := channel.guildName,
            author := m.authorTag, content := m.content,
            timestamp := m.createdAtISO })), .noAction⟩ := by
  simp only [readMessagesTool, hch]

set_option maxRecDepth 8192 in
/-- Witness for C8: the fixture conversation is delivered newest-first
(timestamps 30, 20, 10, 5 — not chronological), and the returned entries
keep exactly that order. -/
theorem c8_witness :
    readMessagesTool singleState ⟨none, "general", 50⟩
      = .ok ⟨renderJson
          [⟨"#general", "Alpha", "MyBot#0", "hi", "2024-01-01T00:00:30.000Z"⟩,
           ⟨"#general", "Alpha", "Helper#2", "auto", "2024-01-01T00:00:20.000Z"⟩,
           ⟨"#general", "Alpha", "Jane#1", "ok", "2024-01-01T00:00:10.000Z"⟩,
           ⟨"#general", "Alpha", "Tom#2", "hey", "2024-01-01T00:00:05.000Z"⟩],
          .noAction⟩
    ∧ (fetchWindow singleState "c1" 50).map (fun m => m.createdTimestamp)
      = [30, 20, 10, 5] := by
  refine ⟨(c8_read_messages_native_order singleState ⟨none, "general", 50⟩
    generalChannel (by decide)).trans ?_, by decide⟩
  decide

end DiscordMCP
